import Mathlib

/-!
Shallow embedding of the repository `yuyu1025/interesting`, a JavaScript
project with three near-duplicate entry points:

* variant A — the Cloudflare Worker in `src/index.js`, which validates the
  `GEMINI_API_KEY` secret, calls the Gemini `generateContent` endpoint and
  injects analytics/ad snippets into the generated page's `head` element
  through `HTMLRewriter`;
* variant B — the Cloudflare Worker that forms the first half of
  `server.js`, which embeds the analytics/ad snippets into the prompt text
  and throws on every failure, converting the thrown error to a 500 error
  page in its `fetch` handler;
* variant C — the standalone Node `http` server in the second half of
  `server.js`, whose `generateHtmlWithAI` catches every failure itself and
  returns an error page as ordinary content (so the handler answers 200).

JavaScript strings are modelled as Lean `String`, always manipulated
through their `List Char` data so that positions count characters, never
UTF-8 bytes.  Outbound `fetch` is a free parameter of each pipeline: an
`Upstream` value says what the one outbound call would have produced, and
each pipeline additionally returns the list of outbound request URLs it
issued, so "no network call is attempted" is the statement that this list
is empty.
-/

/-- Character-exact startsWith, as JavaScript `String.prototype.startsWith`. -/
def strStartsWith (s pre : String) : Bool :=
  pre.data.isPrefixOf s.data

/-- Character-exact endsWith, as JavaScript `String.prototype.endsWith`. -/
def strEndsWith (s suf : String) : Bool :=
  suf.data.isSuffixOf s.data

/-- Drop the first `n` characters (not bytes) of a string. -/
def strDropChars (n : Nat) (s : String) : String :=
  ⟨s.data.drop n⟩

/-- Drop the last `n` characters (not bytes) of a string. -/
def strDropRightChars (n : Nat) (s : String) : String :=
  ⟨s.data.take (s.data.length - n)⟩

/-- The character class of the JavaScript regular-expression `\s` (and of
`String.prototype.trim`): space, the control whitespace characters, NBSP,
the Unicode space separators, the line/paragraph separators and the BOM. -/
def jsWsChar (c : Char) : Bool :=
  c.val = 0x20 || c.val = 0x9 || c.val = 0xa || c.val = 0xb ||
  c.val = 0xc || c.val = 0xd || c.val = 0xa0 || c.val = 0x1680 ||
  (0x2000 ≤ c.val && c.val ≤ 0x200a) || c.val = 0x2028 || c.val = 0x2029 ||
  c.val = 0x202f || c.val = 0x205f || c.val = 0x3000 || c.val = 0xfeff

/-- Both-ends whitespace trim over character lists. -/
def jsTrimList (l : List Char) : List Char :=
  ((l.dropWhile jsWsChar).reverse.dropWhile jsWsChar).reverse

/-- JavaScript `String.prototype.trim`. -/
def jsTrim (s : String) : String :=
  ⟨jsTrimList s.data⟩

/-- Split a character list at the first occurrence of `pat`: `some (a, b)`
with the original list equal to `a ++ b`, `pat` a prefix of `b`, and `pat`
occurring nowhere properly inside `a ++ pat`'s front; `none` when `pat`
does not occur. -/
def splitAtSubstr (pat : List Char) : List Char → Option (List Char × List Char)
  | [] => if pat.isPrefixOf ([] : List Char) then some ([], []) else none
  | c :: cs =>
    if pat.isPrefixOf (c :: cs) then some ([], c :: cs)
    else
      match splitAtSubstr pat cs with
      | some (a, b) => some (c :: a, b)
      | none => none

/-- Substring containment, via `splitAtSubstr`. -/
def strContains (s pat : String) : Bool :=
  (splitAtSubstr pat.data s.data).isSome

/-- Character index of the first occurrence of `pat` in `l`. -/
def firstIdxOf (pat l : List Char) : Option Nat :=
  (splitAtSubstr pat l).map (fun ab => ab.1.length)

/-- Number of (possibly overlapping) occurrences of `pat` in `l`. -/
def countOcc (pat : List Char) : List Char → Nat
  | [] => 0
  | c :: cs => (if pat.isPrefixOf (c :: cs) then 1 else 0) + countOcc pat cs

/-- The segment of `l` strictly between the first occurrence of `openM` and
the first occurrence of `closeM` after it. -/
def segmentBetween (openM closeM l : List Char) : List Char :=
  match splitAtSubstr openM l with
  | none => []
  | some (_, b) =>
    match splitAtSubstr closeM (b.drop openM.length) with
    | none => b.drop openM.length
    | some (a, _) => a

/-- Variant A's fence stripping, `src/index.js` line 107:
`htmlContent.replace(/^` ++ "```" ++ `html\n/, '')` removes one leading
fence marker anchored at the start, which is exactly a startsWith test. -/
def stripLeadingFenceA (s : String) : String :=
  if strStartsWith s "```html\n" then strDropChars 8 s else s

/-- Variant A's trailing replace of the anchored pattern newline-backticks. -/
def stripTrailingFenceA (s : String) : String :=
  if strEndsWith s "\n```" then strDropRightChars 4 s else s

/-- Variant A's full sanitizer (`src/index.js` line 107). -/
def sanitizeA (s : String) : String :=
  stripTrailingFenceA (stripLeadingFenceA s)

/-- Variants B and C's leading alternative of the global replace
(`server.js` lines 103 and 199): the anchored branch consumes the literal
backtick-fence word `html` and then a maximal run of `\s` characters. -/
def stripLeadingFenceB (s : String) : String :=
  if strStartsWith s "```html" then ⟨(s.data.drop 7).dropWhile jsWsChar⟩ else s

/-- Variants B and C's trailing alternative: the end-anchored three
backticks, removed once. -/
def stripTrailingFenceB (s : String) : String :=
  if strEndsWith s "```" then strDropRightChars 3 s else s

/-- Variants B and C's full sanitizer (`server.js` lines 103 and 199):
the global replace followed by `trim()`. -/
def sanitizeB (s : String) : String :=
  jsTrim (stripTrailingFenceB (stripLeadingFenceB s))

/-- JavaScript values as far as the three pipelines inspect the parsed JSON
envelope: `undefined`, `null`, strings, numbers, arrays and objects. -/
inductive JVal where
  | undefined : JVal
  | null : JVal
  | str : String → JVal
  | num : Int → JVal
  | arr : List JVal → JVal
  | obj : List (String × JVal) → JVal

/-- JavaScript truthiness for the modelled values: `undefined`, `null`, the
empty string and `0` are falsy, every array and object is truthy. -/
def truthy : JVal → Bool
  | .undefined => false
  | .null => false
  | .str s => s ≠ ""
  | .num n => n ≠ 0
  | .arr _ => true
  | .obj _ => true

/-- The message of the TypeError V8 raises for a property read on
`undefined` or `null`. -/
def cannotReadMsg (base p : String) : String :=
  "Cannot read properties of " ++ base ++ " (reading '" ++ p ++ "')"

/-- Property access `v.p`: throws (as `Except.error`) on `undefined` and
`null`; a missing field of an object, and any named field of a string or
number, reads as `undefined`; the `length` of an array is its size. -/
def getProp : JVal → String → Except String JVal
  | .undefined, p => .error (cannotReadMsg "undefined" p)
  | .null, p => .error (cannotReadMsg "null" p)
  | .str s, p => .ok (if p = "length" then .num s.length else .undefined)
  | .num _, _ => .ok .undefined
  | .arr xs, p => .ok (if p = "length" then .num xs.length else .undefined)
  | .obj fs, p => .ok ((fs.lookup p).getD .undefined)

/-- Index access `v[i]` for a natural index, used only where the source has
already established that `v` is truthy (so no throw is possible): out-of-range
array reads give `undefined`, objects read the decimal key, a string reads
one character. -/
def jsIndex : JVal → Nat → JVal
  | .arr xs, i => (xs.get? i).getD .undefined
  | .obj fs, i => (fs.lookup (toString i)).getD .undefined
  | .str s, i =>
    match s.data.get? i with
    | some c => .str ⟨[c]⟩
    | none => .undefined
  | _, _ => .undefined

/-- Optional-chaining property access `v?.p`: `undefined`/`null` bases
short-circuit to `undefined` instead of throwing. -/
def optChainProp (v : JVal) (p : String) : JVal :=
  match v with
  | .undefined => .undefined
  | .null => .undefined
  | _ =>
    match getProp v p with
    | .ok w => w
    | .error _ => .undefined

/-- Optional-chaining index access `v?.[i]`. -/
def optChainIndex (v : JVal) (i : Nat) : JVal :=
  match v with
  | .undefined => .undefined
  | .null => .undefined
  | _ => jsIndex v i

/-- The message of the TypeError raised by calling `.replace` on a
non-string. -/
def replaceNotFunctionMsg : String :=
  "htmlContent.replace is not a function"

/-- Variant A's candidate extraction, `src/index.js` lines 104-111: the
condition `result.candidates && result.candidates[0].content &&
result.candidates[0].content.parts && result.candidates[0].content.parts[0].text`
uses no optional chaining, so reading `.content` off an absent first
candidate throws; `Except.error` is a thrown TypeError, `.ok none` the
else branch (unexpected response structure), `.ok (some s)` the extracted
raw text. -/
def extractA (result : JVal) : Except String (Option String) :=
  match getProp result "candidates" with
  | .error e => .error e
  | .ok cands =>
    if truthy cands then
      match getProp (jsIndex cands 0) "content" with
      | .error e => .error e
      | .ok content =>
        if truthy content then
          match getProp content "parts" with
          | .error e => .error e
          | .ok parts =>
            if truthy parts then
              match getProp (jsIndex parts 0) "text" with
              | .error e => .error e
              | .ok text =>
                if truthy text then
                  match text with
                  | .str s => .ok (some s)
                  | _ => .error replaceNotFunctionMsg
                else .ok none
            else .ok none
        else .ok none
    else .ok none

/-- Variant B's candidate extraction, `server.js` lines 101-107: the
condition `result.candidates && result.candidates[0]?.content?.parts?.[0]?.text`
optional-chains every step after the first index, so once `candidates` is
truthy nothing can throw while testing it; on a truthy result the body
re-reads the same path without optional chaining, which is safe because
the chain's value was truthy. -/
def extractB (result : JVal) : Except String (Option String) :=
  match getProp result "candidates" with
  | .error e => .error e
  | .ok cands =>
    if truthy cands then
      match optChainProp (optChainIndex
          (optChainProp (optChainProp (jsIndex cands 0) "content") "parts") 0)
          "text" with
      | .str s => if s = "" then .ok none else .ok (some s)
      | .undefined => .ok none
      | .null => .ok none
      | .num n => if n = 0 then .ok none else .error replaceNotFunctionMsg
      | .arr _ => .error replaceNotFunctionMsg
      | .obj _ => .error replaceNotFunctionMsg
    else .ok none

/-- Variant C's condition, `server.js` lines 194-196:
`result.candidates && result.candidates.length > 0 &&
result.candidates[0].content && result.candidates[0].content.parts &&
result.candidates[0].content.parts.length > 0`, evaluated left to right
with short-circuiting; `.length > 0` on a value without a numeric length is
false (`undefined > 0` is false). -/
def lengthGtZero (v : JVal) : Except String Bool :=
  match getProp v "length" with
  | .error e => .error e
  | .ok (.num n) => .ok (decide (0 < n))
  | .ok _ => .ok false

/-- Variant C's candidate extraction (`server.js` lines 194-205), including
the length guards and the unguarded `.text` read of the first part, which
can still throw when `parts[0]` is `null`. -/
def extractC (result : JVal) : Except String (Option String) :=
  match getProp result "candidates" with
  | .error e => .error e
  | .ok cands =>
    if truthy cands then
      match lengthGtZero cands with
      | .error e => .error e
      | .ok false => .ok none
      | .ok true =>
        match getProp (jsIndex cands 0) "content" with
        | .error e => .error e
        | .ok content =>
          if truthy content then
            match getProp content "parts" with
            | .error e => .error e
            | .ok parts =>
              if truthy parts then
                match lengthGtZero parts with
                | .error e => .error e
                | .ok false => .ok none
                | .ok true =>
                  match getProp (jsIndex parts 0) "text" with
                  | .error e => .error e
                  | .ok (.str s) => .ok (some s)
                  | .ok .undefined => .error (cannotReadMsg "undefined" "replace")
                  | .ok .null => .error (cannotReadMsg "null" "replace")
                  | .ok _ => .error replaceNotFunctionMsg
              else .ok none
          else .ok none
    else .ok none

/-- An inbound request as far as the handlers inspect it: method, path and
the optional user-agent header. -/
structure Req where
  method : String
  path : String
  userAgent : Option String

/-- An outbound HTTP response: status, body text and the declared
content type (`none` when the handler sets no Content-Type header). -/
structure Resp where
  status : Nat
  body : String
  contentType : Option String
deriving DecidableEq

/-- What the single outbound generation call would produce: a parsed JSON
envelope on a 2xx status, a non-2xx status with its body text, or a
rejected fetch/parse (whose error message the handlers embed). -/
inductive Upstream where
  | ok (json : JVal)
  | httpErr (status : Nat) (body : String)
  | netErr (msg : String)

/-- Variant A's environment secrets (`src/index.js`); the empty string
models an unset (hence falsy) variable. -/
structure EnvA where
  GEMINI_API_KEY : String
  GA_MEASUREMENT_ID : String
  ADSENSE_CLIENT_ID : String

/-- Variant B's environment secrets (first half of `server.js`). -/
structure EnvB where
  GEMINI_API_KEY : String
  GOOGLE_ADSENSE_ID : String
  GOOGLE_ANALYTICS_ID : String

/-- The generation endpoint URL each variant posts to, with the credential
as query parameter. -/
def apiUrlGemini (key : String) : String :=
  "https://generativelanguage.googleapis.com/v1beta/models/gemini-2.0-flash:generateContent?key="
    ++ key

/-- The analytics fragment variant A's `HeadInjector.element` appends
(`src/index.js` lines 28-37), byte for byte including the template
literal's newlines and indentation. -/
def analyticsSnippetA (ga : String) : String :=
  "\n        <!-- Google Analytics (injected by Cloudflare Worker) -->\n        <script async src=\"https://www.googletagmanager.com/gtag/js?id="
    ++ ga ++
    "\"></script>\n        <script>\n          window.dataLayer = window.dataLayer || [];\n          function gtag()\x7bdataLayer.push(arguments);\x7d\n          gtag('js', new Date());\n          gtag('config', '"
    ++ ga ++
    "');\n        </script>\n      "

/-- The AdSense fragment variant A's `HeadInjector.element` appends
(`src/index.js` lines 42-45). -/
def adSenseSnippetA (ad : String) : String :=
  "\n        <!-- Google AdSense (injected by Cloudflare Worker) -->\n        <script async src=\"https://pagead2.googlesyndication.com/pagead/js/adsbygoogle.js?client="
    ++ ad ++
    "\" crossorigin=\"anonymous\"></script>\n      "

/-- Everything `HeadInjector.element` appends to the head element for a
given configuration: the analytics fragment when `GA_MEASUREMENT_ID` is
truthy, then the AdSense fragment when `ADSENSE_CLIENT_ID` is truthy
(two successive `element.append` calls, so analytics content lands first). -/
def headInjectorContent (env : EnvA) : String :=
  (if env.GA_MEASUREMENT_ID ≠ "" then analyticsSnippetA env.GA_MEASUREMENT_ID else "")
    ++
  (if env.ADSENSE_CLIENT_ID ≠ "" then adSenseSnippetA env.ADSENSE_CLIENT_ID else "")

/-- Insert `inj` immediately before the first occurrence of `marker`;
identity when the marker is absent. -/
def injectBeforeFirst (marker inj l : List Char) : List Char :=
  match splitAtSubstr marker l with
  | none => l
  | some (a, b) => a ++ inj ++ b

/-- Variant A's `HTMLRewriter().on('head', new HeadInjector(env))`
transform.  Modelled library semantics: `element.append(s, \x7bhtml: true\x7d)` on
the matched `head` element inserts `s` as its last child, i.e. directly
before the head end tag; documents are taken to contain at most one head
element (the HTML data model admits only one), so the insertion point is
the first `</head>` in the stream, and a document with no head end tag
passes through unchanged. -/
def rewriteHeadA (env : EnvA) (html : String) : String :=
  ⟨injectBeforeFirst "</head>".data (headInjectorContent env).data html.data⟩

/-- Variant B's AdSense snippet (`server.js` line 66). -/
def adSenseCodeB (pid : String) : String :=
  "<script async src=\"https://pagead2.googlesyndication.com/pagead/js/adsbygoogle.js?client="
    ++ pid ++ "\" crossorigin=\"anonymous\"></script>"

/-- Variant B's analytics snippet (`server.js` line 67). -/
def analyticsCodeB (mid : String) : String :=
  "<script async src=\"https://www.googletagmanager.com/gtag/js?id="
    ++ mid ++
    "\"></script><script>window.dataLayer = window.dataLayer || [];function gtag()\x7bdataLayer.push(arguments);\x7dgtag('js', new Date());gtag('config', '"
    ++ mid ++ "');</script>"

/-- The AdSense publisher id variant B uses: the configured value, or the
placeholder when the variable is unset or empty (`server.js` line 58). -/
def adSenseIdB (env : EnvB) : String :=
  if env.GOOGLE_ADSENSE_ID = "" then "ca-pub-XXXXXXXXXXXXXXXX" else env.GOOGLE_ADSENSE_ID

/-- The analytics measurement id variant B uses (`server.js` line 59). -/
def analyticsIdB (env : EnvB) : String :=
  if env.GOOGLE_ANALYTICS_ID = "" then "G-XXXXXXXXXX" else env.GOOGLE_ANALYTICS_ID

/-- Variant B's prompt (`server.js` lines 69-79): the injection
instructions, with both snippets embedded literally, are always present. -/
def promptB (env : EnvB) (method path userAgent : String) : String :=
  "你是一个 HTTP server ，用户当前在使用 " ++ method ++
  " 方法，请求路径是 " ++ path ++ " ，用户userAgent是" ++ userAgent ++
  "，请你对此请求和路径写出对应的 html 文档，HTML 文档的 head 标签中必须包含一个 charset=utf-8 标签，并且，请务必在 head 标签中加入 Google AdSense 广告代码: "
    ++ adSenseCodeB (adSenseIdB env) ++
  " ，以及这段 Google Analytics 跟踪代码: " ++ analyticsCodeB (analyticsIdB env) ++
  " ，样式只能写成行内样式，写在标签的 style 属性上！除了 html 内容外不要返回其他内容！并且 html 内最少要有一个超链接，路径必须是本站的绝对路径。"

/-- Variant A's misconfiguration response body (`src/index.js` line 56). -/
def notConfiguredBodyA : String :=
  "AI service is not configured. Administrator needs to set the GEMINI_API_KEY secret."

/-- Variant A's upstream-failure response body (`src/index.js` line 97). -/
def upstreamFailureBodyA (status : Nat) : String :=
  "Failed to get a response from the AI model. Status: " ++ toString status

/-- Variant A's unexpected-format response body (`src/index.js` line 110). -/
def unexpectedFormatBodyA : String :=
  "Received an unexpected response format from the AI model."

/-- Variant A's generic catch-block response body (`src/index.js` line 125;
the `body:` entry of the init object is ignored by the Response
constructor, so this first argument is the body). -/
def internalErrorBodyA : String :=
  "An internal error occurred while processing the request."

/-- Variant A's fetch handler (`src/index.js` lines 51-146) as a function
of the environment, the request, and what the outbound call would return;
the second component lists the outbound request URLs that were issued. -/
def indexFetchA (env : EnvA) (req : Req) (up : Upstream) : Resp × List String :=
  if env.GEMINI_API_KEY = "" then
    (⟨500, notConfiguredBodyA, some "text/plain; charset=utf-8"⟩, [])
  else if req.path = "/favicon.ico" then
    (⟨204, "", none⟩, [])
  else
    let calls := [apiUrlGemini env.GEMINI_API_KEY]
    match up with
    | .netErr _ =>
      (⟨500, internalErrorBodyA, some "text/html; charset=utf-8"⟩, calls)
    | .httpErr status _ =>
      (⟨502, upstreamFailureBodyA status, none⟩, calls)
    | .ok json =>
      match extractA json with
      | .error _ =>
        (⟨500, internalErrorBodyA, some "text/html; charset=utf-8"⟩, calls)
      | .ok none =>
        (⟨500, unexpectedFormatBodyA, none⟩, calls)
      | .ok (some raw) =>
        (⟨200, rewriteHeadA env (sanitizeA raw), some "text/html; charset=utf-8"⟩, calls)

/-- The message variant B throws when the credential is unset
(`server.js` line 63). -/
def missingKeyMsgB : String :=
  "GEMINI_API_KEY is not configured. Please set it in your Worker's settings."

/-- The message variant B throws on a non-2xx upstream status
(`server.js` line 96). -/
def upstreamFailureMsgB (status : Nat) (body : String) : String :=
  "Gemini API request failed with status " ++ toString status ++ ": " ++ body

/-- The message variant B throws on an unexpected envelope
(`server.js` line 106). -/
def invalidContentMsgB : String :=
  "Failed to get valid content from the AI. Check Worker logs for details."

/-- Variant B's `generateHtmlWithAI` (`server.js` lines 54-108):
`Except.error` is a thrown error's message; the second component lists the
outbound calls (none when the missing credential throws before `fetch`). -/
def generateHtmlWithAI_B (env : EnvB) (up : Upstream) :
    Except String String × List String :=
  if env.GEMINI_API_KEY = "" then
    (.error missingKeyMsgB, [])
  else
    (match up with
     | .netErr msg => .error msg
     | .httpErr status body => .error (upstreamFailureMsgB status body)
     | .ok json =>
       match extractB json with
       | .error e => .error e
       | .ok none => .error invalidContentMsgB
       | .ok (some raw) => .ok (sanitizeB raw),
     [apiUrlGemini env.GEMINI_API_KEY])

/-- Variant B's catch-block error page (`server.js` line 37), embedding the
thrown error's message. -/
def workerErrorPageB (msg : String) : String :=
  "<html><head><meta charset=\"utf-8\"></head><body style=\"font-family: sans-serif; background-color: #fdd; color: #a00;\"><div style=\"text-align: center; padding: 50px;\"><h1>500 - Worker Error</h1><p>"
    ++ msg ++ "</p></div></body></html>"

/-- Variant B's fetch handler (`server.js` lines 9-44): favicon
short-circuit, then `generateHtmlWithAI` with every thrown error converted
to a 500 error page. -/
def fetchB (env : EnvB) (req : Req) (up : Upstream) : Resp × List String :=
  if req.path = "/favicon.ico" then
    (⟨204, "", none⟩, [])
  else
    match generateHtmlWithAI_B env up with
    | (.ok html, calls) =>
      (⟨200, html, some "text/html; charset=utf-8"⟩, calls)
    | (.error msg, calls) =>
      (⟨500, workerErrorPageB msg, some "text/html; charset=utf-8"⟩, calls)

/-- Variant C's catch-block error page (`server.js` line 208), returned as
ordinary content. -/
def serverErrorPageC (msg : String) : String :=
  "<html><head><meta charset=\"utf-8\"></head><body style=\"font-family: sans-serif; background-color: #fdd; color: #a00;\"><div style=\"text-align: center; padding: 50px;\"><h1>500 - 服务器内部错误</h1><p>调用AI服务时发生错误。</p><p>"
    ++ msg ++ "</p><a href=\"/\">返回首页</a></div></body></html>"

/-- Variant C's unexpected-envelope page (`server.js` line 204), also
returned as ordinary content. -/
def unexpectedContentPageC : String :=
  "<html><head><meta charset=\"utf-8\"></head><body style=\"font-family: sans-serif; background-color: #f0f0f0; color: #333;\"><div style=\"text-align: center; padding: 50px;\"><h1>错误</h1><p>未能从 AI 获取有效内容。</p><p>请检查服务器日志。</p><a href=\"/\">返回首页</a></div></body></html>"

/-- Variant C's `generateHtmlWithAI` (`server.js` lines 149-210): the
missing credential only logs a warning, the outbound call is attempted
unconditionally, and every failure is caught inside the function and
rendered as an error page string, so the function never throws. -/
def generateHtmlWithAI_C (apiKey : String) (up : Upstream) : String × List String :=
  (match up with
   | .netErr msg => serverErrorPageC msg
   | .httpErr status body =>
     serverErrorPageC ("API request failed with status " ++ toString status ++ ": " ++ body)
   | .ok json =>
     match extractC json with
     | .error e => serverErrorPageC e
     | .ok none => unexpectedContentPageC
     | .ok (some raw) => sanitizeB raw,
   [apiUrlGemini apiKey])

/-- Variant C's request handler (`server.js` lines 213-238): favicon gets
204 with an `image/x-icon` content type, everything else gets status 200
with whatever string `generateHtmlWithAI` produced. -/
def serverHandlerC (apiKey : String) (req : Req) (up : Upstream) : Resp × List String :=
  if req.path = "/favicon.ico" then
    (⟨204, "", some "image/x-icon"⟩, [])
  else
    let r := generateHtmlWithAI_C apiKey up
    (⟨200, r.1, some "text/html; charset=utf-8"⟩, r.2)

/-- JavaScript `String.prototype.split` with a one-character separator,
over character lists: the pieces between separator occurrences, in order,
with empty pieces kept (so the result is always non-empty). -/
def splitCharList (sep : Char) : List Char → List (List Char)
  | [] => [[]]
  | c :: cs =>
    if c = sep then [] :: splitCharList sep cs
    else
      match splitCharList sep cs with
      | [] => [[c]]
      | h :: t => (c :: h) :: t

/-- Variant C's `getApiKey` (`server.js` lines 119-136): the value of the
first `--apiKey=`/`--key=` argument after its first `=`-split piece, else
the argument following a bare `--apiKey`/`--key` when that argument is
truthy, else the `GEMINI_API_KEY` environment variable (empty when unset). -/
def getApiKey (args : List String) (envKey : String) : String :=
  match args.find? (fun a => strStartsWith a "--apiKey=" || strStartsWith a "--key=") with
  | some arg =>
    match (splitCharList '=' arg.data).get? 1 with
    | some piece => ⟨piece⟩
    | none => ""
  | none =>
    match args.findIdx? (fun a => a == "--apiKey" || a == "--key") with
    | some i =>
      match args.get? (i + 1) with
      | some next => if next ≠ "" then next else envKey
      | none => envKey
    | none => envKey

/-- A list is a prefix of itself followed by anything. -/
theorem isPrefixOf_append_self (p k : List Char) : p.isPrefixOf (p ++ k) = true := by
  induction p with
  | nil => simp
  | cons a as ih => simp [List.isPrefixOf_cons₂, ih]

/-- The two pieces of a successful `splitAtSubstr` rebuild the input. -/
theorem splitAtSubstr_recombine (pat : List Char) :
    ∀ (l a b : List Char), splitAtSubstr pat l = some (a, b) → a ++ b = l := by
  intro l
  induction l with
  | nil =>
    intro a b h
    rw [splitAtSubstr] at h
    split at h
    · cases h; rfl
    · cases h
  | cons c cs ih =>
    intro a b h
    rw [splitAtSubstr] at h
    split at h
    · cases h; rfl
    · cases hsp : splitAtSubstr pat cs with
      | none => rw [hsp] at h; simp at h
      | some ab =>
        obtain ⟨a₂, b₂⟩ := ab
        rw [hsp] at h
        cases h
        rw [List.cons_append, ih _ _ hsp]

/-- Splitting at a pattern that starts the list succeeds. -/
theorem splitAtSubstr_self_append (pat y : List Char) :
    (splitAtSubstr pat (pat ++ y)).isSome = true := by
  cases pat with
  | nil =>
    cases y with
    | nil => rfl
    | cons c ys => simp [splitAtSubstr]
  | cons p ps =>
    have h := isPrefixOf_append_self (p :: ps) y
    rw [List.cons_append] at h ⊢
    rw [splitAtSubstr, if_pos h]
    rfl

/-- Splitting still succeeds after prepending characters. -/
theorem splitAtSubstr_append_left (pat x l : List Char)
    (h : (splitAtSubstr pat l).isSome = true) :
    (splitAtSubstr pat (x ++ l)).isSome = true := by
  induction x with
  | nil => simpa using h
  | cons c x ih =>
    rw [List.cons_append, splitAtSubstr]
    split
    · rfl
    · cases hsp : splitAtSubstr pat (x ++ l) with
      | none => rw [hsp] at ih; cases ih
      | some ab =>
        obtain ⟨a₂, b₂⟩ := ab
        rfl

/-- String data of an append is the append of the data. -/
theorem strData_append (s t : String) : (s ++ t).data = s.data ++ t.data := by
  cases s
  cases t
  rfl

/-- A string contains any middle piece of an append chain. -/
theorem strContains_append_mid (x m y : String) :
    strContains (x ++ m ++ y) m = true := by
  show (splitAtSubstr m.data (x ++ m ++ y).data).isSome = true
  rw [strData_append, strData_append, List.append_assoc]
  exact splitAtSubstr_append_left m.data x.data (m.data ++ y.data)
    (splitAtSubstr_self_append m.data y.data)

/-- dropWhile done twice is dropWhile done once. -/
theorem dropWhile_idem (p : Char → Bool) (l : List Char) :
    (l.dropWhile p).dropWhile p = l.dropWhile p := by
  induction l with
  | nil => rfl
  | cons c cs ih =>
    by_cases h : p c = true
    · rw [List.dropWhile_cons_of_pos h, ih]
    · rw [List.dropWhile_cons_of_neg (by simp [h]),
        List.dropWhile_cons_of_neg (by simp [h])]

/-- dropWhile leaves every prefix of a list it leaves whole alone. -/
theorem dropWhile_eq_self_of_append (p : Char → Bool) (a b : List Char)
    (h : List.dropWhile p (a ++ b) = a ++ b) : List.dropWhile p a = a := by
  cases a with
  | nil => rfl
  | cons c t =>
    by_cases hc : p c = true
    · exfalso
      rw [List.cons_append, List.dropWhile_cons_of_pos hc] at h
      have hlen := (List.dropWhile_sublist (l := t ++ b) p).length_le
      rw [h] at hlen
      simp at hlen
    · rw [List.dropWhile_cons_of_neg (by simp [hc])]

/-- Every list is a prefix followed by its dropWhile remainder. -/
theorem exists_dropWhile_decomp (p : Char → Bool) (l : List Char) :
    ∃ u, l = u ++ l.dropWhile p := by
  induction l with
  | nil => exact ⟨[], rfl⟩
  | cons c cs ih =>
    by_cases h : p c = true
    · obtain ⟨u, hu⟩ := ih
      refine ⟨c :: u, ?_⟩
      rw [List.dropWhile_cons_of_pos h, List.cons_append, ← hu]
    · exact ⟨[], by rw [List.dropWhile_cons_of_neg (by simp [h])]; rfl⟩

/-- The both-ends trim is idempotent. -/
theorem jsTrimList_idem (l : List Char) : jsTrimList (jsTrimList l) = jsTrimList l := by
  have hm : List.dropWhile jsWsChar (l.dropWhile jsWsChar) = l.dropWhile jsWsChar :=
    dropWhile_idem jsWsChar l
  obtain ⟨u, hu⟩ := exists_dropWhile_decomp jsWsChar (l.dropWhile jsWsChar).reverse
  have h1 : List.dropWhile jsWsChar (jsTrimList l) = jsTrimList l := by
    apply dropWhile_eq_self_of_append jsWsChar (jsTrimList l) u.reverse
    have hrecomp : jsTrimList l ++ u.reverse = l.dropWhile jsWsChar := by
      show ((l.dropWhile jsWsChar).reverse.dropWhile jsWsChar).reverse ++ u.reverse = _
      rw [← List.reverse_append, ← hu, List.reverse_reverse]
    rw [hrecomp]
    exact hm
  show jsTrimList (jsTrimList l) = jsTrimList l
  rw [jsTrimList, h1]
  show ((((l.dropWhile jsWsChar).reverse.dropWhile jsWsChar).reverse).reverse.dropWhile
      jsWsChar).reverse = _
  rw [List.reverse_reverse, dropWhile_idem]
  rfl

/-- The string-level trim is idempotent. -/
theorem jsTrim_idem (s : String) : jsTrim (jsTrim s) = jsTrim s :=
  congrArg String.mk (jsTrimList_idem s.data)

/-- The split of a list is never the empty list of pieces. -/
theorem splitCharList_ne_nil (sep : Char) (l : List Char) :
    splitCharList sep l ≠ [] := by
  induction l with
  | nil => simp [splitCharList]
  | cons c cs ih =>
    rw [splitCharList]
    split
    · simp
    · cases h : splitCharList sep cs with
      | nil => exact absurd h ih
      | cons hd tl => simp

/-- The first piece of a split is everything before the first separator. -/
theorem splitCharList_head (sep : Char) (l : List Char) :
    ∃ t, splitCharList sep l = l.takeWhile (fun c => !(c == sep)) :: t := by
  induction l with
  | nil => exact ⟨[], rfl⟩
  | cons c cs ih =>
    by_cases h : c = sep
    · refine ⟨splitCharList sep cs, ?_⟩
      subst h
      rw [splitCharList, if_pos rfl]
      simp [List.takeWhile_cons]
    · obtain ⟨t, ht⟩ := ih
      refine ⟨t, ?_⟩
      rw [splitCharList, if_neg h, ht]
      simp [List.takeWhile_cons, h]

/-- Splitting around an explicit first separator keeps the clean part as
the first piece. -/
theorem splitCharList_sep_append (sep : Char) (a k : List Char)
    (h : ∀ c ∈ a, ¬ c = sep) :
    splitCharList sep (a ++ sep :: k) = a :: splitCharList sep k := by
  induction a with
  | nil => rw [List.nil_append, splitCharList, if_pos rfl]
  | cons c t ih =>
    have hc : ¬ c = sep := h c (List.mem_cons_self c t)
    rw [List.cons_append, splitCharList, if_neg hc,
      ih (fun x hx => h x (List.mem_cons_of_mem c hx))]

/-- Rebuilding a string from its character data gives the string back. -/
theorem strMk_data (s : String) : (⟨s.data⟩ : String) = s := rfl

/-- Inserting nothing before the first marker changes nothing. -/
theorem injectBeforeFirst_nil (marker l : List Char) :
    injectBeforeFirst marker [] l = l := by
  rw [injectBeforeFirst]
  cases h : splitAtSubstr marker l with
  | none => rfl
  | some ab =>
    obtain ⟨a, b⟩ := ab
    show a ++ [] ++ b = l
    rw [List.append_nil]
    exact splitAtSubstr_recombine marker l a b h

/-- The URL fragment identifying the analytics script. -/
def gtagJsUrl : String := "https://www.googletagmanager.com/gtag/js"

/-- The URL fragment identifying the AdSense script. -/
def adsbygoogleUrl : String := "https://pagead2.googlesyndication.com/pagead/js/adsbygoogle.js"

/-- The spec's end-to-end test document: generated HTML with one head
element. -/
def injectTestDoc : String :=
  "<html><head><meta charset=\"utf-8\"></head><body><a href=\"/\">Home</a></body></html>"

/-- The spec's test configuration for the structural injector. -/
def envInjectTest : EnvA := ⟨"KEY", "G-TEST", "ca-pub-TEST"⟩

set_option maxRecDepth 16000

/-- C7: with both identifiers configured (`G-TEST`, `ca-pub-TEST`), variant
A's structural injector output for an HTML document with a head element
contains exactly one analytics script reference and exactly one AdSense
script reference; both occurrences lie strictly between the first `<head>`
and the matching `</head>`, and the analytics reference comes first. -/
theorem spec_c7_structural_injection :
    countOcc gtagJsUrl.data (rewriteHeadA envInjectTest injectTestDoc).data = 1 ∧
    countOcc adsbygoogleUrl.data (rewriteHeadA envInjectTest injectTestDoc).data = 1 ∧
    countOcc gtagJsUrl.data
      (segmentBetween "<head>".data "</head>".data
        (rewriteHeadA envInjectTest injectTestDoc).data) = 1 ∧
    countOcc adsbygoogleUrl.data
      (segmentBetween "<head>".data "</head>".data
        (rewriteHeadA envInjectTest injectTestDoc).data) = 1 ∧
    (firstIdxOf gtagJsUrl.data (rewriteHeadA envInjectTest injectTestDoc).data).isSome
      = true ∧
    (firstIdxOf gtagJsUrl.data (rewriteHeadA envInjectTest injectTestDoc).data).getD 0 <
    (firstIdxOf adsbygoogleUrl.data (rewriteHeadA envInjectTest injectTestDoc).data).getD 0
    := by decide

/-- C8: both sanitizer variants map the fenced input with real newlines to
exactly the inner content. -/
theorem spec_c8_fence_example :
    sanitizeA "```html\nFOO\n```" = "FOO" ∧ sanitizeB "```html\nFOO\n```" = "FOO" := by
  decide

/-- C1 counterexample: in the standalone server variant with the empty
credential, a non-favicon request still triggers the outbound generation
call and the response status is 200, not 500. -/
theorem spec_c1_counterexample :
    (serverHandlerC "" ⟨"GET", "/", none⟩ (.httpErr 400 "API key not valid")).1.status
        = 200 ∧
    (serverHandlerC "" ⟨"GET", "/", none⟩ (.httpErr 400 "API key not valid")).1.status
        ≠ 500 ∧
    (serverHandlerC "" ⟨"GET", "/", none⟩ (.httpErr 400 "API key not valid")).2
        = [apiUrlGemini ""] := by decide

/-- C2 counterexample: in the prompt-embedded worker variant, an upstream
503 yields response status 500, not 502. -/
theorem spec_c2_counterexample :
    (fetchB ⟨"KEY", "", ""⟩ ⟨"GET", "/", none⟩
        (.httpErr 503 "Service Unavailable")).1.status = 500 ∧
    (fetchB ⟨"KEY", "", ""⟩ ⟨"GET", "/", none⟩
        (.httpErr 503 "Service Unavailable")).1.status ≠ 502 := by decide

/-- C3 counterexample: in the HTMLRewriter worker variant the credential
check precedes the favicon check, so a favicon request with an unset
credential gets status 500, not 204. -/
theorem spec_c3_counterexample :
    (indexFetchA ⟨"", "", ""⟩ ⟨"GET", "/favicon.ico", none⟩ (.ok .null)).1.status
        = 500 ∧
    (indexFetchA ⟨"", "", ""⟩ ⟨"GET", "/favicon.ico", none⟩ (.ok .null)).1.status
        ≠ 204 := by decide

/-- C4 counterexample: in the prompt-embedded variant with both optional
identifiers absent, the injection instructions still carry three script
tags (the placeholder-id snippets), not zero. -/
theorem spec_c4_counterexample :
    countOcc "<script".data (promptB ⟨"KEY", "", ""⟩ "GET" "/" "UA").data = 3 ∧
    strContains (promptB ⟨"KEY", "", ""⟩ "GET" "/" "UA")
      (analyticsCodeB "G-XXXXXXXXXX") = true ∧
    strContains (promptB ⟨"KEY", "", ""⟩ "GET" "/" "UA")
      (adSenseCodeB "ca-pub-XXXXXXXXXXXXXXXX") = true := by decide

/-- C5 counterexample: neither variant's sanitizer is idempotent; on this
input a second application strips a second fence. -/
theorem spec_c5_counterexample :
    sanitizeA (sanitizeA "```html\n```html\nA") ≠ sanitizeA "```html\n```html\nA" ∧
    sanitizeB (sanitizeB "```html\n```html\nA") ≠ sanitizeB "```html\n```html\nA" := by
  decide

/-- C6 counterexample: the standalone server variant answers a success
envelope without a candidates field with status 200, not 500. -/
theorem spec_c6_counterexample :
    (serverHandlerC "KEY" ⟨"GET", "/", none⟩
        (.ok (.obj [("error", .str "quota")]))).1.status = 200 ∧
    (serverHandlerC "KEY" ⟨"GET", "/", none⟩
        (.ok (.obj [("error", .str "quota")]))).1.status ≠ 500 := by decide

/-- A string contains its own final append piece. -/
theorem strContains_append_end (x m : String) : strContains (x ++ m) m = true := by
  have h := strContains_append_mid x m ""
  have he : (x ++ m) ++ "" = x ++ m := by
    cases hx : x ++ m with
    | mk l => exact congrArg String.mk (List.append_nil l)
  rwa [he] at h

/-- C1 amended: with an empty credential and a non-favicon path, the two
worker variants answer 500 without issuing the outbound call, while the
standalone server still issues the call and answers 200. -/
theorem spec_c1_amended (envA : EnvA) (envB : EnvB) (req : Req) (up : Upstream)
    (hA : envA.GEMINI_API_KEY = "") (hB : envB.GEMINI_API_KEY = "")
    (hf : req.path ≠ "/favicon.ico") :
    (indexFetchA envA req up).1.status = 500 ∧ (indexFetchA envA req up).2 = [] ∧
    (fetchB envB req up).1.status = 500 ∧ (fetchB envB req up).2 = [] ∧
    (serverHandlerC "" req up).1.status = 200 ∧
    (serverHandlerC "" req up).2 = [apiUrlGemini ""] := by
  refine ⟨?_, ?_, ?_, ?_, ?_, ?_⟩
  · simp [indexFetchA, hA]
  · simp [indexFetchA, hA]
  · simp [fetchB, hf, generateHtmlWithAI_B, hB]
  · simp [fetchB, hf, generateHtmlWithAI_B, hB]
  · simp [serverHandlerC, hf]
  · simp [serverHandlerC, hf, generateHtmlWithAI_C]

/-- Witness for the amended C1 at a concrete empty-credential request. -/
theorem spec_c1_amended_witness :
    (indexFetchA ⟨"", "", ""⟩ ⟨"GET", "/", none⟩ (.netErr "x")).1.status = 500 ∧
    (indexFetchA ⟨"", "", ""⟩ ⟨"GET", "/", none⟩ (.netErr "x")).2 = [] ∧
    (fetchB ⟨"", "", ""⟩ ⟨"GET", "/", none⟩ (.netErr "x")).1.status = 500 ∧
    (fetchB ⟨"", "", ""⟩ ⟨"GET", "/", none⟩ (.netErr "x")).2 = [] ∧
    (serverHandlerC "" ⟨"GET", "/", none⟩ (.netErr "x")).1.status = 200 ∧
    (serverHandlerC "" ⟨"GET", "/", none⟩ (.netErr "x")).2 = [apiUrlGemini ""] :=
  spec_c1_amended ⟨"", "", ""⟩ ⟨"", "", ""⟩ ⟨"GET", "/", none⟩ (.netErr "x")
    rfl rfl (by decide)

/-- C2 amended: on a non-2xx upstream status the HTMLRewriter worker
answers 502, the prompt-embedded worker answers 500 and the standalone
server answers 200; each body contains the upstream status code. -/
theorem spec_c2_amended (envA : EnvA) (envB : EnvB) (key : String) (req : Req)
    (s : Nat) (b : String)
    (hA : envA.GEMINI_API_KEY ≠ "") (hB : envB.GEMINI_API_KEY ≠ "")
    (hf : req.path ≠ "/favicon.ico") :
    (indexFetchA envA req (.httpErr s b)).1 = ⟨502, upstreamFailureBodyA s, none⟩ ∧
    strContains (upstreamFailureBodyA s) (toString s) = true ∧
    (fetchB envB req (.httpErr s b)).1 =
      ⟨500, workerErrorPageB (upstreamFailureMsgB s b), some "text/html; charset=utf-8"⟩ ∧
    strContains (workerErrorPageB (upstreamFailureMsgB s b)) (toString s) = true ∧
    (serverHandlerC key req (.httpErr s b)).1 =
      ⟨200, serverErrorPageC ("API request failed with status " ++ toString s ++ ": " ++ b),
        some "text/html; charset=utf-8"⟩ ∧
    strContains
      (serverErrorPageC ("API request failed with status " ++ toString s ++ ": " ++ b))
      (toString s) = true := by
  refine ⟨?_, ?_, ?_, ?_, ?_, ?_⟩
  · simp [indexFetchA, hA, hf]
  · show strContains
      ("Failed to get a response from the AI model. Status: " ++ toString s)
      (toString s) = true
    exact strContains_append_end _ _
  · simp [fetchB, hf, generateHtmlWithAI_B, hB]
  · unfold workerErrorPageB upstreamFailureMsgB strContains
    simp only [strData_append, List.append_assoc]
    apply splitAtSubstr_append_left
    apply splitAtSubstr_append_left
    exact splitAtSubstr_self_append _ _
  · simp [serverHandlerC, hf, generateHtmlWithAI_C]
  · unfold serverErrorPageC strContains
    simp only [strData_append, List.append_assoc]
    apply splitAtSubstr_append_left
    apply splitAtSubstr_append_left
    exact splitAtSubstr_self_append _ _

/-- Witness for the amended C2 at the spec's 503 scenario. -/
theorem spec_c2_amended_witness :
    (indexFetchA ⟨"KEY", "", ""⟩ ⟨"GET", "/", none⟩ (.httpErr 503 "down")).1 =
      ⟨502, upstreamFailureBodyA 503, none⟩ ∧
    strContains (upstreamFailureBodyA 503) (toString 503) = true ∧
    (fetchB ⟨"KEY", "", ""⟩ ⟨"GET", "/", none⟩ (.httpErr 503 "down")).1 =
      ⟨500, workerErrorPageB (upstreamFailureMsgB 503 "down"),
        some "text/html; charset=utf-8"⟩ ∧
    strContains (workerErrorPageB (upstreamFailureMsgB 503 "down")) (toString 503)
      = true ∧
    (serverHandlerC "KEY" ⟨"GET", "/", none⟩ (.httpErr 503 "down")).1 =
      ⟨200, serverErrorPageC ("API request failed with status " ++ toString 503
        ++ ": " ++ "down"), some "text/html; charset=utf-8"⟩ ∧
    strContains (serverErrorPageC ("API request failed with status " ++ toString 503
        ++ ": " ++ "down")) (toString 503) = true :=
  spec_c2_amended ⟨"KEY", "", ""⟩ ⟨"KEY", "", ""⟩ "KEY" ⟨"GET", "/", none⟩ 503 "down"
    (by decide) (by decide) (by decide)

/-- C3 amended: favicon requests always get 204 with an empty body in the
prompt-embedded worker and the standalone server; in the HTMLRewriter
worker this holds only when the credential is set, because the credential
check runs first and an unset credential yields 500 even for the favicon. -/
theorem spec_c3_amended (envA : EnvA) (envB : EnvB) (key : String) (req : Req)
    (up : Upstream) (hf : req.path = "/favicon.ico") :
    fetchB envB req up = (⟨204, "", none⟩, []) ∧
    serverHandlerC key req up = (⟨204, "", some "image/x-icon"⟩, []) ∧
    (envA.GEMINI_API_KEY ≠ "" → indexFetchA envA req up = (⟨204, "", none⟩, [])) ∧
    (envA.GEMINI_API_KEY = "" → (indexFetchA envA req up).1.status = 500) := by
  refine ⟨by simp [fetchB, hf], by simp [serverHandlerC, hf], ?_, ?_⟩
  · intro h
    simp [indexFetchA, h, hf]
  · intro h
    simp [indexFetchA, h]

/-- Witness for the amended C3 at a concrete favicon request. -/
theorem spec_c3_amended_witness :
    fetchB ⟨"KEY", "", ""⟩ ⟨"GET", "/favicon.ico", none⟩ (.netErr "x")
      = (⟨204, "", none⟩, []) ∧
    serverHandlerC "KEY" ⟨"GET", "/favicon.ico", none⟩ (.netErr "x")
      = (⟨204, "", some "image/x-icon"⟩, []) ∧
    ((⟨"KEY", "", ""⟩ : EnvA).GEMINI_API_KEY ≠ "" →
      indexFetchA ⟨"KEY", "", ""⟩ ⟨"GET", "/favicon.ico", none⟩ (.netErr "x")
        = (⟨204, "", none⟩, [])) ∧
    ((⟨"KEY", "", ""⟩ : EnvA).GEMINI_API_KEY = "" →
      (indexFetchA ⟨"KEY", "", ""⟩ ⟨"GET", "/favicon.ico", none⟩ (.netErr "x")).1.status
        = 500) :=
  spec_c3_amended ⟨"KEY", "", ""⟩ ⟨"KEY", "", ""⟩ "KEY" ⟨"GET", "/favicon.ico", none⟩
    (.netErr "x") rfl

/-- C4 amended: with both optional identifiers absent, the structural
injector of the HTMLRewriter worker is the identity on every document (no
error, zero injected tags); the prompt-embedded variant instead falls back
to the placeholder identifiers, so its injection instructions still embed
both snippets. -/
theorem spec_c4_amended (envA : EnvA) (envB : EnvB) (html m p ua : String)
    (hga : envA.GA_MEASUREMENT_ID = "") (had : envA.ADSENSE_CLIENT_ID = "")
    (hbga : envB.GOOGLE_ANALYTICS_ID = "") (hbad : envB.GOOGLE_ADSENSE_ID = "") :
    rewriteHeadA envA html = html ∧
    strContains (promptB envB m p ua) (analyticsCodeB "G-XXXXXXXXXX") = true ∧
    strContains (promptB envB m p ua) (adSenseCodeB "ca-pub-XXXXXXXXXXXXXXXX") = true
    := by
  refine ⟨?_, ?_, ?_⟩
  · have hc : headInjectorContent envA = "" := by
      simp [headInjectorContent, hga, had]
    rw [rewriteHeadA, hc]
    show (⟨injectBeforeFirst "</head>".data [] html.data⟩ : String) = html
    rw [injectBeforeFirst_nil]
  · have hid : analyticsIdB envB = "G-XXXXXXXXXX" := by simp [analyticsIdB, hbga]
    unfold strContains promptB
    rw [hid]
    simp only [strData_append, List.append_assoc]
    apply splitAtSubstr_append_left
    apply splitAtSubstr_append_left
    apply splitAtSubstr_append_left
    apply splitAtSubstr_append_left
    apply splitAtSubstr_append_left
    apply splitAtSubstr_append_left
    apply splitAtSubstr_append_left
    apply splitAtSubstr_append_left
    apply splitAtSubstr_append_left
    exact splitAtSubstr_self_append _ _
  · have hid : adSenseIdB envB = "ca-pub-XXXXXXXXXXXXXXXX" := by
      simp [adSenseIdB, hbad]
    unfold strContains promptB
    rw [hid]
    simp only [strData_append, List.append_assoc]
    apply splitAtSubstr_append_left
    apply splitAtSubstr_append_left
    apply splitAtSubstr_append_left
    apply splitAtSubstr_append_left
    apply splitAtSubstr_append_left
    apply splitAtSubstr_append_left
    apply splitAtSubstr_append_left
    exact splitAtSubstr_self_append _ _

/-- Witness for the amended C4 at concrete inputs. -/
theorem spec_c4_amended_witness :
    rewriteHeadA ⟨"KEY", "", ""⟩ "<html><head></head></html>"
      = "<html><head></head></html>" ∧
    strContains (promptB ⟨"KEY", "", ""⟩ "GET" "/" "UA")
      (analyticsCodeB "G-XXXXXXXXXX") = true ∧
    strContains (promptB ⟨"KEY", "", ""⟩ "GET" "/" "UA")
      (adSenseCodeB "ca-pub-XXXXXXXXXXXXXXXX") = true :=
  spec_c4_amended ⟨"KEY", "", ""⟩ ⟨"KEY", "", ""⟩ "<html><head></head></html>"
    "GET" "/" "UA" rfl rfl rfl rfl

/-- A Boolean prefix test bounds the pattern's length. -/
theorem isPrefixOf_length_le (p : List Char) :
    ∀ l, p.isPrefixOf l = true → p.length ≤ l.length := by
  induction p with
  | nil => intro l _; simp
  | cons a as ih =>
    intro l h
    cases l with
    | nil => simp at h
    | cons b bs =>
      rw [List.isPrefixOf_cons₂, Bool.and_eq_true] at h
      have hl := ih bs h.2
      simp only [List.length_cons]
      omega

/-- A Boolean suffix test bounds the pattern's length. -/
theorem isSuffixOf_length_le (p l : List Char) (h : p.isSuffixOf l = true) :
    p.length ≤ l.length := by
  rw [List.isSuffixOf] at h
  have hl := isPrefixOf_length_le p.reverse l.reverse h
  simpa using hl

/-- Trimming never lengthens a string. -/
theorem jsTrim_length_le (s : String) : (jsTrim s).data.length ≤ s.data.length := by
  show (jsTrimList s.data).length ≤ _
  unfold jsTrimList
  have h1 := (List.dropWhile_sublist (l := s.data) jsWsChar).length_le
  have h2 :=
    (List.dropWhile_sublist (l := (s.data.dropWhile jsWsChar).reverse) jsWsChar).length_le
  simp only [List.length_reverse] at h1 h2 ⊢
  omega

/-- Stripping a trailing fence never lengthens a string. -/
theorem stripTrailingFenceB_length_le (s : String) :
    (stripTrailingFenceB s).data.length ≤ s.data.length := by
  unfold stripTrailingFenceB
  split
  · simp only [strDropRightChars, List.length_take]
    exact Nat.min_le_right _ _
  · exact Nat.le_refl _

/-- A string that still starts or ends with variant A's fence markers
strictly shrinks under variant A's sanitizer. -/
theorem sanitizeA_shrinks (y : String)
    (h : strStartsWith y "```html\n" = true ∨ strEndsWith y "\n```" = true) :
    (sanitizeA y).data.length < y.data.length := by
  show (stripTrailingFenceA (stripLeadingFenceA y)).data.length < y.data.length
  by_cases h1 : strStartsWith y "```html\n" = true
  · have hlen : 8 ≤ y.data.length := by
      have h8 := isPrefixOf_length_le "```html\n".data y.data h1
      simpa using h8
    have hz : (stripLeadingFenceA y).data.length = y.data.length - 8 := by
      rw [stripLeadingFenceA, if_pos h1]
      simp [strDropChars]
    unfold stripTrailingFenceA
    split
    · simp only [strDropRightChars, List.length_take]
      rw [Nat.min_eq_left (Nat.sub_le _ _)]
      omega
    · omega
  · have h2 : strEndsWith y "\n```" = true := h.resolve_left h1
    have hlen : 4 ≤ y.data.length := by
      have h4 := isSuffixOf_length_le "\n```".data y.data h2
      simpa using h4
    rw [stripLeadingFenceA, if_neg h1]
    unfold stripTrailingFenceA
    rw [if_pos h2]
    simp only [strDropRightChars, List.length_take]
    rw [Nat.min_eq_left (Nat.sub_le _ _)]
    omega

/-- A string that still starts or ends with variant B's fence markers
strictly shrinks under the B/C sanitizer. -/
theorem sanitizeB_shrinks (y : String)
    (h : strStartsWith y "```html" = true ∨ strEndsWith y "```" = true) :
    (sanitizeB y).data.length < y.data.length := by
  show (jsTrim (stripTrailingFenceB (stripLeadingFenceB y))).data.length < y.data.length
  by_cases h1 : strStartsWith y "```html" = true
  · have hlen : 7 ≤ y.data.length := by
      have h7 := isPrefixOf_length_le "```html".data y.data h1
      simpa using h7
    have hz : (stripLeadingFenceB y).data.length ≤ y.data.length - 7 := by
      rw [stripLeadingFenceB, if_pos h1]
      have hd := (List.dropWhile_sublist (l := y.data.drop 7) jsWsChar).length_le
      simpa [List.length_drop] using hd
    have ht := stripTrailingFenceB_length_le (stripLeadingFenceB y)
    have hj := jsTrim_length_le (stripTrailingFenceB (stripLeadingFenceB y))
    omega
  · have h2 : strEndsWith y "```" = true := h.resolve_left h1
    have hlen : 3 ≤ y.data.length := by
      have h3 := isSuffixOf_length_le "```".data y.data h2
      simpa using h3
    have hz : stripLeadingFenceB y = y := by rw [stripLeadingFenceB, if_neg h1]
    have ht : (stripTrailingFenceB y).data.length = y.data.length - 3 := by
      rw [stripTrailingFenceB, if_pos h2]
      simp only [strDropRightChars, List.length_take]
      rw [Nat.min_eq_left (Nat.sub_le _ _)]
    have hj := jsTrim_length_le (stripTrailingFenceB y)
    rw [hz]
    omega

/-- C5 amended: each variant's sanitizer is idempotent exactly on those
inputs whose once-sanitized form neither starts with that variant's
leading fence marker nor ends with its trailing fence marker: a residual
marker makes the second pass strictly shorter, and without one the second
pass is the identity (the counterexample shows the unconditional claim
fails). -/
theorem spec_c5_amended (x : String) :
    (sanitizeA (sanitizeA x) = sanitizeA x ↔
      (strStartsWith (sanitizeA x) "```html\n" = false ∧
       strEndsWith (sanitizeA x) "\n```" = false)) ∧
    (sanitizeB (sanitizeB x) = sanitizeB x ↔
      (strStartsWith (sanitizeB x) "```html" = false ∧
       strEndsWith (sanitizeB x) "```" = false)) := by
  constructor
  · constructor
    · intro heq
      constructor
      · by_contra hs
        simp only [Bool.not_eq_false] at hs
        have hlt := sanitizeA_shrinks (sanitizeA x) (Or.inl hs)
        rw [heq] at hlt
        exact absurd hlt (lt_irrefl _)
      · by_contra hs
        simp only [Bool.not_eq_false] at hs
        have hlt := sanitizeA_shrinks (sanitizeA x) (Or.inr hs)
        rw [heq] at hlt
        exact absurd hlt (lt_irrefl _)
    · rintro ⟨h1, h2⟩
      show stripTrailingFenceA (stripLeadingFenceA (sanitizeA x)) = sanitizeA x
      unfold stripLeadingFenceA stripTrailingFenceA
      simp only [h1, h2, Bool.false_eq_true, if_false]
  · constructor
    · intro heq
      constructor
      · by_contra hs
        simp only [Bool.not_eq_false] at hs
        have hlt := sanitizeB_shrinks (sanitizeB x) (Or.inl hs)
        rw [heq] at hlt
        exact absurd hlt (lt_irrefl _)
      · by_contra hs
        simp only [Bool.not_eq_false] at hs
        have hlt := sanitizeB_shrinks (sanitizeB x) (Or.inr hs)
        rw [heq] at hlt
        exact absurd hlt (lt_irrefl _)
    · rintro ⟨h1, h2⟩
      show jsTrim (stripTrailingFenceB (stripLeadingFenceB (sanitizeB x))) = sanitizeB x
      unfold stripLeadingFenceB stripTrailingFenceB
      simp only [h1, h2, Bool.false_eq_true, if_false]
      show jsTrim (jsTrim (stripTrailingFenceB (stripLeadingFenceB x))) = sanitizeB x
      rw [jsTrim_idem]
      rfl

/-- Witness for the amended C5: the marker-free side is satisfiable and
yields idempotence at the spec's fenced example. -/
theorem spec_c5_amended_witness :
    sanitizeA (sanitizeA "```html\nFOO\n```") = sanitizeA "```html\nFOO\n```" ∧
    sanitizeB (sanitizeB "```html\nFOO\n```") = sanitizeB "```html\nFOO\n```" :=
  ⟨(spec_c5_amended "```html\nFOO\n```").1.mpr ⟨by decide, by decide⟩,
   (spec_c5_amended "```html\nFOO\n```").2.mpr ⟨by decide, by decide⟩⟩

/-- C6 amended: on a success envelope without a candidates field the two
worker variants answer 500 (with the unexpected-format text, respectively
the error page embedding the invalid-content message) while the standalone
server answers 200 with its unexpected-content page. -/
theorem spec_c6_amended (envA : EnvA) (envB : EnvB) (key : String) (req : Req)
    (fs : List (String × JVal))
    (hA : envA.GEMINI_API_KEY ≠ "") (hB : envB.GEMINI_API_KEY ≠ "")
    (hf : req.path ≠ "/favicon.ico")
    (hc : fs.lookup "candidates" = none) :
    (indexFetchA envA req (.ok (.obj fs))).1 = ⟨500, unexpectedFormatBodyA, none⟩ ∧
    (fetchB envB req (.ok (.obj fs))).1 =
      ⟨500, workerErrorPageB invalidContentMsgB, some "text/html; charset=utf-8"⟩ ∧
    (serverHandlerC key req (.ok (.obj fs))).1 =
      ⟨200, unexpectedContentPageC, some "text/html; charset=utf-8"⟩ := by
  have hxA : extractA (.obj fs) = .ok none := by
    simp [extractA, getProp, hc, truthy]
  have hxB : extractB (.obj fs) = .ok none := by
    simp [extractB, getProp, hc, truthy]
  have hxC : extractC (.obj fs) = .ok none := by
    simp [extractC, getProp, hc, truthy]
  refine ⟨?_, ?_, ?_⟩
  · simp [indexFetchA, hA, hf, hxA]
  · simp [fetchB, hf, generateHtmlWithAI_B, hB, hxB]
  · simp [serverHandlerC, hf, generateHtmlWithAI_C, hxC]

/-- Witness for the amended C6 at a concrete candidate-free envelope. -/
theorem spec_c6_amended_witness :
    (indexFetchA ⟨"KEY", "", ""⟩ ⟨"GET", "/", none⟩
        (.ok (.obj [("error", .str "quota")]))).1
      = ⟨500, unexpectedFormatBodyA, none⟩ ∧
    (fetchB ⟨"KEY", "", ""⟩ ⟨"GET", "/", none⟩
        (.ok (.obj [("error", .str "quota")]))).1
      = ⟨500, workerErrorPageB invalidContentMsgB, some "text/html; charset=utf-8"⟩ ∧
    (serverHandlerC "KEY" ⟨"GET", "/", none⟩
        (.ok (.obj [("error", .str "quota")]))).1
      = ⟨200, unexpectedContentPageC, some "text/html; charset=utf-8"⟩ :=
  spec_c6_amended ⟨"KEY", "", ""⟩ ⟨"KEY", "", ""⟩ "KEY" ⟨"GET", "/", none⟩
    [("error", .str "quota")] (by decide) (by decide) (by decide) rfl

/-- C10: in the HTMLRewriter worker a success envelope whose candidates
field is the empty array makes the extraction throw the TypeError for
reading `content` off `undefined`; the pipeline catch converts it to the
generic internal-error 500 body, which differs from the
unexpected-format 500 body. -/
theorem spec_c10_empty_candidates (envA : EnvA) (req : Req)
    (hA : envA.GEMINI_API_KEY ≠ "") (hf : req.path ≠ "/favicon.ico") :
    extractA (.obj [("candidates", .arr [])]) =
      .error (cannotReadMsg "undefined" "content") ∧
    (indexFetchA envA req (.ok (.obj [("candidates", .arr [])]))).1 =
      ⟨500, internalErrorBodyA, some "text/html; charset=utf-8"⟩ ∧
    internalErrorBodyA ≠ unexpectedFormatBodyA := by
  have hx : extractA (.obj [("candidates", .arr [])]) =
      .error (cannotReadMsg "undefined" "content") := rfl
  exact ⟨hx, by simp [indexFetchA, hA, hf, hx], by decide⟩

/-- Witness for C10 at a concrete configured request. -/
theorem spec_c10_empty_candidates_witness :
    extractA (.obj [("candidates", .arr [])]) =
      .error (cannotReadMsg "undefined" "content") ∧
    (indexFetchA ⟨"KEY", "", ""⟩ ⟨"GET", "/", none⟩
        (.ok (.obj [("candidates", .arr [])]))).1 =
      ⟨500, internalErrorBodyA, some "text/html; charset=utf-8"⟩ ∧
    internalErrorBodyA ≠ unexpectedFormatBodyA :=
  spec_c10_empty_candidates ⟨"KEY", "", ""⟩ ⟨"GET", "/", none⟩ (by decide) (by decide)

/-- C9: for a `--apiKey=K` or `--key=K` argument, `getApiKey` returns
exactly the part of `K` before its first `=`: all of `K` when `K` has no
`=`, and a strict prefix of `K` otherwise (witnessed at `K = "A=B"`). -/
theorem spec_c9_getApiKey (K env : String) :
    getApiKey ["--apiKey=" ++ K] env = ⟨K.data.takeWhile (fun c => !(c == '='))⟩ ∧
    getApiKey ["--key=" ++ K] env = ⟨K.data.takeWhile (fun c => !(c == '='))⟩ ∧
    ((∀ c ∈ K.data, ¬ c = '=') → getApiKey ["--apiKey=" ++ K] env = K) ∧
    getApiKey ["--apiKey=A=B"] env = "A" ∧
    "A".data.isPrefixOf "A=B".data = true ∧ "A" ≠ "A=B" := by
  have hpre : ∀ (flag : String), strStartsWith (flag ++ K) flag = true := by
    intro flag
    show (flag.data.isPrefixOf (flag ++ K).data) = true
    rw [strData_append]
    exact isPrefixOf_append_self _ _
  obtain ⟨t, ht⟩ := splitCharList_head '=' K.data
  have hsplit1 : splitCharList '=' ("--apiKey=" ++ K).data =
      "--apiKey".data :: splitCharList '=' K.data := by
    have hdata1 : ("--apiKey=" ++ K).data = "--apiKey".data ++ '=' :: K.data := by
      rw [strData_append]
      have h9 : "--apiKey=".data = "--apiKey".data ++ ['='] := by decide
      rw [h9, List.append_assoc]
      rfl
    rw [hdata1]
    exact splitCharList_sep_append '=' _ _ (by decide)
  have hsplit2 : splitCharList '=' ("--key=" ++ K).data =
      "--key".data :: splitCharList '=' K.data := by
    have hdata2 : ("--key=" ++ K).data = "--key".data ++ '=' :: K.data := by
      rw [strData_append]
      have h9 : "--key=".data = "--key".data ++ ['='] := by decide
      rw [h9, List.append_assoc]
      rfl
    rw [hdata2]
    exact splitCharList_sep_append '=' _ _ (by decide)
  have hfind1 : List.find?
      (fun a => strStartsWith a "--apiKey=" || strStartsWith a "--key=")
      ["--apiKey=" ++ K] = some ("--apiKey=" ++ K) := by
    simp [List.find?, hpre "--apiKey="]
  have hfind2 : List.find?
      (fun a => strStartsWith a "--apiKey=" || strStartsWith a "--key=")
      ["--key=" ++ K] = some ("--key=" ++ K) := by
    simp [List.find?, hpre "--key=", Bool.or_true]
  have hmain1 : getApiKey ["--apiKey=" ++ K] env =
      ⟨K.data.takeWhile (fun c => !(c == '='))⟩ := by
    simp only [getApiKey, hfind1, hsplit1, ht, List.get?]
    simp [List.nil_append, ht]
  have hmain2 : getApiKey ["--key=" ++ K] env =
      ⟨K.data.takeWhile (fun c => !(c == '='))⟩ := by
    simp only [getApiKey, hfind2, hsplit2, ht, List.get?]
    simp [List.nil_append, ht]
  refine ⟨hmain1, hmain2, ?_, ?_, by decide, by decide⟩
  · intro h
    have htw : K.data.takeWhile (fun c => !(c == '=')) = K.data := by
      apply List.takeWhile_eq_self_iff.mpr
      intro x hx
      simp [h x hx]
    rw [hmain1, htw]
  · rfl

/-- Witness for C9 at a concrete `=`-free key and the spec's degenerate
argument. -/
theorem spec_c9_getApiKey_witness :
    getApiKey ["--apiKey=" ++ "SECRET"] "" = "SECRET" ∧
    getApiKey ["--apiKey=A=B"] "" = "A" :=
  ⟨(spec_c9_getApiKey "SECRET" "").2.2.1 (by decide),
   (spec_c9_getApiKey "SECRET" "").2.2.2.1⟩
